/-
Verification of the aiogram survey-bot core against its specification.

The Python sources are shallowly embedded: each handler's pure decision
logic (validation, selection toggling, update-payload computation, the
security middleware's check pipeline) is translated into executable Lean
definitions, and the spec's claims are settled as theorems about those
definitions.  Transient FSM data is an explicit `SessionData` record,
the persisted document is `StoredResume`, and the messaging transport is
kept opaque (outbound messages are constructors of small inductives).
Python `float` experience values are carried opaquely and never computed
with, so they are modelled as rationals.
-/
import Mathlib

/-! ## Generic helpers: Python dict / str fragments -/

/-- First-match lookup in an association list (Python `dict[k]` access;
Python dicts have unique keys, so first match is the binding). -/
def lookupA {α : Type} (k : String) : List (String × α) → Option α
  | [] => none
  | (k', v) :: rest => if k' = k then some v else lookupA k rest

/-- Python `{**old, **nw}`: keys of `old` (values overridden by `nw` where
present) followed by the keys only in `nw`. -/
def dictMerge {α : Type} (old nw : List (String × α)) : List (String × α) :=
  (old.map (fun p => match lookupA p.1 nw with
    | some v => (p.1, v)
    | none => p))
  ++ nw.filter (fun p => (lookupA p.1 old).isNone)

/-- Python `str.strip()` on a character list. -/
def stripL (l : List Char) : List Char :=
  ((l.dropWhile Char.isWhitespace).reverse.dropWhile Char.isWhitespace).reverse

/-- Python `str.strip()`. -/
def pyStrip (s : String) : String := ⟨stripL s.data⟩

/-- Python `str.isdigit()` (ASCII fragment: non-empty and all decimal digits). -/
def pyIsDigit (s : String) : Bool := !s.data.isEmpty && s.data.all Char.isDigit

/-- Digit run as accepted by Python `int()` after the optional sign:
non-empty, and underscores may appear only between digits. -/
def digitsUAux : List Char → Bool
  | [] => true
  | '_' :: d :: rest => d.isDigit && digitsUAux rest
  | ['_'] => false
  | c :: rest => c.isDigit && digitsUAux rest

/-- A valid Python `int()` digit body (digits with embedded underscores). -/
def digitsU : List Char → Bool
  | [] => false
  | c :: rest => c.isDigit && digitsUAux rest

/-- Numeric value of a digit-and-underscore run. -/
def natOfDigitsU (l : List Char) : Nat :=
  l.foldl (fun a c => if c = '_' then a else 10 * a + (c.toNat - 48)) 0

/-- Python `int(s)` (ASCII fragment): strip whitespace, optional sign,
digits with embedded underscores; `none` models `ValueError`. -/
def pyParseInt (s : String) : Option Int :=
  match stripL s.data with
  | '+' :: rest => if digitsU rest then some ((natOfDigitsU rest : Nat) : Int) else none
  | '-' :: rest => if digitsU rest then some (-((natOfDigitsU rest : Nat) : Int)) else none
  | l => if digitsU l then some ((natOfDigitsU l : Nat) : Int) else none

/-! ## Age validation (`process_age` in stage_resume.py and
`process_age_wrapper` in edit_resume.py) -/

/-- Outcome of one age-input step. -/
inductive AgeResult
  | emptyErr
  | spacesErr
  | invalidErr
  | ok (n : Nat)
deriving DecidableEq

/-- Validation cascade of `process_age` (stage_resume.py:289-313):
`age_text = message.text.strip()`; empty check; `" " in age_text`;
`age_text.isdigit()` and `18 <= int(age_text) <= 100`. -/
def process_age_validate (raw : String) : AgeResult :=
  let t := pyStrip raw
  if t = "" then .emptyErr
  else if t.data.contains ' ' then .spacesErr
  else if pyIsDigit t && decide (18 ≤ natOfDigitsU t.data ∧ natOfDigitsU t.data ≤ 100) then
    .ok (natOfDigitsU t.data)
  else .invalidErr

/-- Validation cascade of `process_age_wrapper` (edit_resume.py:660-706):
same strip/empty/space checks, but the range test uses `int(age_text)`
inside try/except instead of `isdigit()`. -/
def process_age_wrapper_validate (raw : String) : AgeResult :=
  let t := pyStrip raw
  if t = "" then .emptyErr
  else if t.data.contains ' ' then .spacesErr
  else match pyParseInt t with
    | some n => if 18 ≤ n ∧ n ≤ 100 then .ok n.toNat else .invalidErr
    | none => .invalidErr

/-- The spec's acceptance rule for age, read off its words: "non-empty; no
internal whitespace; all-digit; integer in [18,100]" (no stripping). -/
def spec_age_valid (s : String) : Bool :=
  !s.data.isEmpty && s.data.all (fun c => !c.isWhitespace) && pyIsDigit s &&
    decide (18 ≤ natOfDigitsU s.data ∧ natOfDigitsU s.data ≤ 100)

/-! ## Phone validation (`process_phone`, stage_resume.py:243-286) -/

/-- Inbound phone step input: a structured contact share or free text. -/
inductive PhoneInput
  | contact (num : String)
  | text (s : String)

/-- Outcome of one phone-input step. -/
inductive PhoneResult
  | ok (phone : String)
  | invalid
deriving DecidableEq

/-- Python `re.match(r"^\+380\d{9}$", s)`: anchored at the start, and `$`
matches at the end of the string or just before one final newline. -/
def phone_regex_match (s : String) : Bool :=
  match s.data with
  | '+' :: '3' :: '8' :: '0' :: rest =>
      (rest.length = 9 && rest.all Char.isDigit) ||
      (rest.length = 10 && (rest.take 9).all Char.isDigit && rest.getLast? = some '\n')
  | _ => false

/-- The spec's rule read off its words: free text "matching exactly `+380`
followed by 9 digits". -/
def spec_phone_exact (s : String) : Bool :=
  match s.data with
  | '+' :: '3' :: '8' :: '0' :: rest => rest.length = 9 && rest.all Char.isDigit
  | _ => false

/-! ## Data model: persisted record, transient session, update payloads -/

/-- The `place_of_living` sub-document written by
`prepare_resume_data_for_firebase`. -/
structure PlaceOfLiving where
  region_key : Option String := none
  region_name : Option String := none
  city : Option String := none
deriving DecidableEq

/-- The persisted resume document (one per user, keyed by `user_id`),
in the shape produced by `prepare_resume_data_for_firebase`.  The
`created_at`/`updated_at` server timestamps added by the persistence layer
are bookkeeping metadata outside the spec's Record model and are omitted. -/
structure StoredResume where
  user_id : Int := 0
  username : Option String := none
  name : Option String := none
  phone : Option String := none
  age : Option Nat := none
  place_of_living : Option PlaceOfLiving := none
  driving_categories : List String := []
  driving_experience : List (String × Rat) := []
  semi_trailer_types : List String := []
  types_of_work : List String := []
  types_of_cars : List String := []
  race_duration_preference : List String := []
  is_adr_license : Bool := false
  docs_for_driving_abroad : List String := []
  military_booking : Bool := false
  desired_salary : Option Nat := none
  description : String := ""
deriving DecidableEq

/-- The transient FSM session (`state.get_data()` keys used by the
embedded handlers). -/
structure SessionData where
  name : Option String := none
  phone : Option String := none
  age : Option Nat := none
  place_of_living_region : Option String := none
  place_of_living_city : Option String := none
  selected_driver_categories : List String := []
  all_selected_categories : Option (List String) := none
  driving_experience : List (String × Rat) := []
  semi_trailer_types : Option (List String) := none
  types_of_work : List String := []
  types_of_cars : Option String := none
  is_adr_license : Option Bool := none
  race_duration_preference : List String := []
  desired_salary : Option Nat := none
  docs_for_driving_abroad : List String := []
  military_booking : Option Bool := none
  description : Option String := none
  editing_field : Option String := none
  editing_resume : Option StoredResume := none
  editing_user_id : Option Int := none
  editing_username : Option String := none
deriving DecidableEq

/-- A partial-update payload (`field_updates` dict in `save_edited_field`,
`updates` in `update_resume_sync`): `none` means the key is absent. -/
structure ResumeUpdates where
  user_id : Option Int := none
  username : Option (Option String) := none
  name : Option (Option String) := none
  phone : Option (Option String) := none
  age : Option (Option Nat) := none
  place_of_living : Option PlaceOfLiving := none
  driving_categories : Option (List String) := none
  driving_experience : Option (List (String × Rat)) := none
  semi_trailer_types : Option (List String) := none
  types_of_work : Option (List String) := none
  types_of_cars : Option (List String) := none
  race_duration_preference : Option (List String) := none
  is_adr_license : Option Bool := none
  desired_salary : Option (Option Nat) := none
  docs_for_driving_abroad : Option (List String) := none
  military_booking : Option Bool := none
  description : Option String := none
deriving DecidableEq

/-! ## Persistence layer (`firebase_db/crud.py`) -/

/-- Firestore's `doc_ref.update(update_data)` contract (the store is the
spec's opaque document service): every key present in the payload replaces
the stored field, every absent key leaves the stored field unchanged. -/
def docUpdate (rec : StoredResume) (u : ResumeUpdates) : StoredResume :=
  { user_id := u.user_id.getD rec.user_id
    username := u.username.getD rec.username
    name := u.name.getD rec.name
    phone := u.phone.getD rec.phone
    age := u.age.getD rec.age
    place_of_living := match u.place_of_living with
      | some p => some p
      | none => rec.place_of_living
    driving_categories := u.driving_categories.getD rec.driving_categories
    driving_experience := u.driving_experience.getD rec.driving_experience
    semi_trailer_types := u.semi_trailer_types.getD rec.semi_trailer_types
    types_of_work := u.types_of_work.getD rec.types_of_work
    types_of_cars := u.types_of_cars.getD rec.types_of_cars
    race_duration_preference := u.race_duration_preference.getD rec.race_duration_preference
    is_adr_license := u.is_adr_license.getD rec.is_adr_license
    docs_for_driving_abroad := u.docs_for_driving_abroad.getD rec.docs_for_driving_abroad
    military_booking := u.military_booking.getD rec.military_booking
    desired_salary := u.desired_salary.getD rec.desired_salary
    description := u.description.getD rec.description }

/-- `update_resume_sync` (crud.py:282-328) guard on the payload: when the
`user_id` or `username` key is present in `updates`, it is overwritten with
the existing stored value before the document update is issued. -/
def update_resume_payload (rec : StoredResume) (u : ResumeUpdates) : ResumeUpdates :=
  { u with
    user_id := u.user_id.map (fun _ => rec.user_id)
    username := u.username.map (fun _ => rec.username) }

/-- `update_resume_sync` applied to an existing stored record (the
not-found and exception paths return `False` and change nothing). -/
def update_resume_sync (rec : StoredResume) (u : ResumeUpdates) : StoredResume :=
  docUpdate rec (update_resume_payload rec u)

/-! ## `save_edited_field` (edit_resume.py:401-532), pure payload part -/

/-- Modelled from the spec: `DRIVING_CATEGORIES_ADDITIONAL_INFO`, the fixed
"needs-detail" subset of driving categories, lives in `constants.py` which
is not among the sources; per the spec's edit-flow scenario and the
`process_driving_semi_trailer_types` docstring ("single survey for C1E/CE
categories") it consists of the C1E and CE categories. -/
def DRIVING_CATEGORIES_ADDITIONAL_INFO : List String := ["C1E", "CE"]

/-- `new_categories = data.get("all_selected_categories") or
data.get("selected_driver_categories", [])` (Python `or`: an absent or
empty first operand falls back to the second). -/
def newCategories (data : SessionData) : List String :=
  match data.all_selected_categories with
  | some l => if l.isEmpty then data.selected_driver_categories else l
  | none => data.selected_driver_categories

/-- The merged-then-filtered experience dict of the driving-categories
branch: `{**existing, **new}` restricted to the still-selected categories. -/
def filtered_experience (editingResume : StoredResume) (data : SessionData) :
    List (String × Rat) :=
  (dictMerge editingResume.driving_experience data.driving_experience).filter
    (fun p => (newCategories data).contains p.1)

/-- `any(cat in selected_set for cat in DRIVING_CATEGORIES_ADDITIONAL_INFO)`. -/
def needs_semi_trailer (addl newCats : List String) : Bool :=
  addl.any (fun cat => newCats.contains cat)

/-- `[t.strip() for t in s.split(",") if t.strip()]`. -/
def splitCommaTrim (s : String) : List String :=
  ((s.splitOn ",").map pyStrip).filter (fun t => t ≠ "")

/-- The `editing_field == "driving_categories"` branch of
`save_edited_field` (edit_resume.py:440-474): new category list, merged
experience filtered to the remaining categories (key omitted when the
result is empty), and the semi-trailer derivation. -/
def driving_categories_updates (addl : List String) (data : SessionData)
    (editingResume : StoredResume) : ResumeUpdates :=
  let newCats := newCategories data
  let filtered := filtered_experience editingResume data
  let semi := match data.semi_trailer_types with
    | some l => if l.isEmpty then editingResume.semi_trailer_types else l
    | none => editingResume.semi_trailer_types
  { driving_categories := some newCats
    driving_experience := if filtered.isEmpty then none else some filtered
    semi_trailer_types :=
      if needs_semi_trailer addl newCats then
        (if semi.isEmpty then none else some semi)
      else some [] }

/-- The `field_updates` dict computed by `save_edited_field`
(edit_resume.py:422-497) as a function of the session data and the
snapshot taken at edit entry.  `regions` is the fixed region lookup
(`REGIONS` in the absent `constants.py`) and `addl` the needs-detail
category subset; both are passed as parameters. -/
def save_edited_field_updates (regions : List (String × String))
    (addl : List String) (data : SessionData) (editingResume : StoredResume) :
    ResumeUpdates :=
  match data.editing_field with
  | some "name" => { name := some data.name }
  | some "phone" => { phone := some data.phone }
  | some "age" => { age := some data.age }
  | some "location" =>
      match data.place_of_living_region, data.place_of_living_city with
      | some rk, some city =>
          { place_of_living := some
              { region_key := some rk
                region_name := some ((lookupA rk regions).getD rk)
                city := some city } }
      | _, _ => {}
  | some "driving_categories" => driving_categories_updates addl data editingResume
  | some "type_of_work" => { types_of_work := some data.types_of_work }
  | some "types_of_cars" =>
      { types_of_cars := some (splitCommaTrim (data.types_of_cars.getD "")) }
  | some "adr" => { is_adr_license := some (data.is_adr_license.getD false) }
  | some "race_duration" =>
      { race_duration_preference := some data.race_duration_preference }
  | some "salary" => { desired_salary := some data.desired_salary }
  | some "docs_abroad" =>
      { docs_for_driving_abroad := some data.docs_for_driving_abroad }
  | some "military" => { military_booking := some (data.military_booking.getD false) }
  | some "description" => { description := some (data.description.getD "") }
  | _ => {}

/-! ## Emoji stripping and the session finalizer (stage_resume.py:1334-1589) -/

/-- Closed-interval test used for the emoji code-point ranges. -/
def inRange (lo hi n : Nat) : Bool := decide (lo ≤ n ∧ n ≤ hi)

/-- Membership in the character class of `remove_emojis`' compiled pattern
(stage_resume.py:1344-1359). -/
def isEmojiChar (c : Char) : Bool :=
  let n := c.toNat
  inRange 0x1F600 0x1F64F n || inRange 0x1F300 0x1F5FF n ||
  inRange 0x1F680 0x1F6FF n || inRange 0x1F1E0 0x1F1FF n ||
  inRange 0x2702 0x27B0 n || inRange 0x24C2 0x1F251 n ||
  inRange 0x1F900 0x1F9FF n || inRange 0x1FA00 0x1FA6F n ||
  inRange 0x1FA70 0x1FAFF n || inRange 0x2600 0x26FF n ||
  inRange 0x2700 0x27BF n

/-- Python `re.sub(r"\s+", " ", ·)`: every maximal whitespace run becomes
one space.  The Boolean records whether the previous kept character closed
a whitespace run. -/
def collapseWsAux : List Char → Bool → List Char
  | [], _ => []
  | c :: rest, prevWs =>
    if c.isWhitespace then
      if prevWs then collapseWsAux rest true
      else ' ' :: collapseWsAux rest true
    else c :: collapseWsAux rest false

/-- `remove_emojis` (stage_resume.py:1334-1364): drop emoji characters,
collapse whitespace runs to single spaces, strip the ends. -/
def remove_emojis (s : String) : String :=
  ⟨stripL (collapseWsAux (s.data.filter (fun c => !isEmojiChar c)) false)⟩

/-- `clean_data_for_firebase` (stage_resume.py:1367-1381) specialised to the
record shape it is applied to: every string value is cleaned recursively
through lists and dict values; dict keys, integers, floats and booleans
pass through unchanged. -/
def clean_data_for_firebase (r : StoredResume) : StoredResume :=
  { r with
    username := r.username.map remove_emojis
    name := r.name.map remove_emojis
    phone := r.phone.map remove_emojis
    place_of_living := r.place_of_living.map (fun p =>
      { region_key := p.region_key.map remove_emojis
        region_name := p.region_name.map remove_emojis
        city := p.city.map remove_emojis })
    driving_categories := r.driving_categories.map remove_emojis
    driving_experience := r.driving_experience.map (fun p => (p.1, p.2))
    semi_trailer_types := r.semi_trailer_types.map remove_emojis
    types_of_work := r.types_of_work.map remove_emojis
    types_of_cars := r.types_of_cars.map remove_emojis
    race_duration_preference := r.race_duration_preference.map remove_emojis
    docs_for_driving_abroad := r.docs_for_driving_abroad.map remove_emojis
    description := remove_emojis r.description }

/-- `_convert_car_types_to_list` (stage_resume.py:1384-1409) on the session's
optional string value (`data.get("types_of_cars")`). -/
def convert_car_types_to_list (carTypes : Option String) : List String :=
  match carTypes with
  | none => []
  | some s => splitCommaTrim s

/-- `prepare_resume_data_for_firebase` (stage_resume.py:1412-1481) for an
already-validated integer `user_id`: assemble the record, clean every
string field, then restore the originally supplied `user_id`/`username`.
`regions` is the fixed `REGIONS` lookup from the absent `constants.py`. -/
def prepare_resume_data_for_firebase (regions : List (String × String))
    (data : SessionData) (user_id : Int) (username : Option String) : StoredResume :=
  let rk := data.place_of_living_region
  let base : StoredResume :=
    { user_id := user_id
      username := username
      name := data.name
      phone := data.phone
      age := data.age
      place_of_living := some
        { region_key := rk
          region_name := rk.map (fun k => (lookupA k regions).getD k)
          city := data.place_of_living_city }
      driving_categories := data.selected_driver_categories
      driving_experience := data.driving_experience
      semi_trailer_types := data.semi_trailer_types.getD []
      types_of_work := data.types_of_work
      types_of_cars := convert_car_types_to_list data.types_of_cars
      race_duration_preference := data.race_duration_preference
      is_adr_license := data.is_adr_license.getD false
      docs_for_driving_abroad := data.docs_for_driving_abroad
      military_booking := data.military_booking.getD false
      desired_salary := data.desired_salary
      description := data.description.getD "" }
  let cleaned := clean_data_for_firebase base
  { cleaned with user_id := user_id, username := username }

/-- Outcome of the `add_resume` persistence call as observed by
`finalize_resume`: a returned key, a `None` return, or a raised exception. -/
inductive PersistOutcome
  | saved (key : String)
  | failed
  | raised
deriving DecidableEq

/-- Outbound user-visible effects of `finalize_resume` (transport rendering
is the opaque I/O boundary; the summary carries the session data it is
formatted from). -/
inductive BotOutput
  | identityError
  | summary (data : SessionData)
  | resumeSavedMsg
  | mainMenu (hasResume : Bool)
deriving DecidableEq

/-- Log line emitted for the persistence call inside `finalize_resume`. -/
inductive PersistLog
  | okKey (key : String)
  | warnFailed
  | errRaised
deriving DecidableEq

/-- Result of one `finalize_resume` run. -/
structure FinalizeResult where
  outputs : List BotOutput
  cleared : Bool
  persisted : Option StoredResume
  plog : Option PersistLog
deriving DecidableEq

/-- `finalize_resume` (stage_resume.py:1484-1589): resolve the acting user,
persist the prepared record (outcome supplied by the collaborator), then
unconditionally show the summary, the completion message, clear the
session, and re-render the main menu with `has_resume=True`. -/
def finalize_resume (regions : List (String × String)) (user_id : Option Int)
    (username : Option String) (data : SessionData) (outcome : PersistOutcome) :
    FinalizeResult :=
  match user_id with
  | none => { outputs := [.identityError], cleared := false, persisted := none, plog := none }
  | some uid =>
    let fb := prepare_resume_data_for_firebase regions data uid username
    { outputs := [.summary data, .resumeSavedMsg, .mainMenu true]
      cleared := true
      persisted := some fb
      plog := some (match outcome with
        | .saved k => .okKey k
        | .failed => .warnFailed
        | .raised => .errRaised) }

/-! ## Selection-toggle engine (`toggle_selection`, functions.py:65-123) -/

/-- Session slice touched by `toggle_selection`: the tracked set for the
step's field and the FSM state. -/
structure ToggleSession where
  selected : Finset String := ∅
  surveyState : Option String := none
deriving DecidableEq

/-- Observable effect of one `toggle_selection` call. -/
inductive ToggleEffect
  | errProcessing
  | noSelection
  | submitted (items : Finset String)
  | invalidIndex
  | toggled (selected : Finset String)
deriving DecidableEq

/-- `if item in selected: remove else: add`. -/
def toggleItem (item : String) (sel : Finset String) : Finset String :=
  if item ∈ sel then sel.erase item else insert item sel

/-- `toggle_selection(callback.data, prefix=pre, options, next_state)` as a
session transformer: tag check, `"submit"` handling, index resolution with
fallback to the raw suffix on `ValueError`, then set toggle. -/
def toggle_selection (cbData pre : String) (options : List String)
    (nextState : Option String) (s : ToggleSession) : ToggleSession × ToggleEffect :=
  if cbData.data.take pre.data.length = pre.data then
    let itemId : String := ⟨cbData.data.drop pre.data.length⟩
    if itemId = "submit" then
      if s.selected = ∅ then (s, .noSelection)
      else
        ({ s with surveyState := match nextState with
            | some ns => some ns
            | none => s.surveyState },
         .submitted s.selected)
    else
      match pyParseInt itemId with
      | some idx =>
        if idx < 0 then (s, .invalidIndex)
        else match options.get? idx.toNat with
          | some item =>
              ({ s with selected := toggleItem item s.selected },
               .toggled (toggleItem item s.selected))
          | none => (s, .invalidIndex)
      | none =>
          ({ s with selected := toggleItem itemId s.selected },
           .toggled (toggleItem itemId s.selected))
  else (s, .errProcessing)

/-! ## Documents-for-driving-abroad toggle (stage_resume.py:973-1029 and the
identical edit-mode branch, edit_resume.py:1393-1465) -/

/-- The mutually-exclusive sentinel of the document list
(`no_docs_option = "❌ Не маю"`). -/
def no_docs_option : String := "❌ Не маю"

/-- Observable effect of one docs-abroad callback. -/
inductive DocsEffect
  | errProcessing
  | invalidIndex
  | updated (sel : Finset String)
  | noSelection
  | submitted (sel : Finset String)
deriving DecidableEq

/-- `toggle_docs_for_driving_abroad` on the `selected_docs_abroad` set:
submit handling, tag check, strict index resolution (`ValueError` is an
error here, no label fallback), then the sentinel-exclusive toggle. -/
def toggle_docs_for_driving_abroad (docs : List String) (cbData : String)
    (sel : Finset String) : Finset String × DocsEffect :=
  if cbData = "docs_abroad_submit" then
    if sel = ∅ then (sel, .noSelection) else (sel, .submitted sel)
  else if cbData.data.take ("docs_abroad_" : String).data.length
      = ("docs_abroad_" : String).data then
    match pyParseInt ⟨cbData.data.drop ("docs_abroad_" : String).data.length⟩ with
    | some idx =>
      if idx < 0 then (sel, .invalidIndex)
      else match docs.get? idx.toNat with
        | some item =>
          let sel' := if item = no_docs_option then {no_docs_option}
            else toggleItem item (sel.erase no_docs_option)
          (sel', .updated sel')
        | none => (sel, .invalidIndex)
    | none => (sel, .errProcessing)
  else (sel, .errProcessing)

/-- Selection states reachable by docs-abroad callbacks from the initial
empty selection (`data.get("selected_docs_abroad", [])`). -/
inductive DocsReachable (docs : List String) : Finset String → Prop
  | init : DocsReachable docs ∅
  | step (cb : String) (sel : Finset String) (h : DocsReachable docs sel) :
      DocsReachable docs (toggle_docs_for_driving_abroad docs cb sel).1

/-! ## Abuse-control layer (`SecurityMiddleware`, security_middleware.py) -/

/-- Constructor parameters of `SecurityMiddleware.__init__`, with its
defaults; wall-clock quantities are rationals. -/
structure SecurityConfig where
  max_requests_per_minute : Nat := 30
  max_requests_per_hour : Nat := 200
  max_requests_per_day : Nat := 1000
  max_identical_messages : Nat := 5
  identical_message_window : Rat := 60
  min_message_interval : Rat := 1/2
  burst_threshold : Nat := 10
  burst_window : Rat := 2
  max_survey_duration : Rat := 3600
  max_state_changes_per_minute : Nat := 20
  max_callbacks_per_second : Rat := 5
  max_identical_callbacks : Nat := 10
  identical_callback_window : Rat := 3
  whitelist : List Int := []
  blacklist : List Int := []
deriving DecidableEq

/-- The per-user `UserActivity` record (timestamp deques as lists in
arrival order, most recent last). -/
structure UserActivity where
  request_times : List Rat := []
  identical_messages : List (Rat × String) := []
  suspicious_score : Int := 0
  blocked_until : Option Rat := none
  survey_start_time : Option Rat := none
  last_state : Option String := none
  state_changes : List Rat := []
  last_command_time : Option Rat := none
  callback_times : List Rat := []
  last_callback_data : Option String := none
deriving DecidableEq

/-- `_check_rate_limit`: trailing 60s/3600s/86400s request counts against
their ceilings; passes iff none is exceeded. -/
def check_rate_limit (cfg : SecurityConfig) (act : UserActivity) (now : Rat) : Bool :=
  let m := (act.request_times.filter (fun t => decide (now - t < 60))).length
  let h := (act.request_times.filter (fun t => decide (now - t < 3600))).length
  let d := (act.request_times.filter (fun t => decide (now - t < 86400))).length
  !(decide (m > cfg.max_requests_per_minute) || decide (h > cfg.max_requests_per_hour)
    || decide (d > cfg.max_requests_per_day))

/-- `_check_burst_protection`: fails when the trailing `burst_window`
holds at least `burst_threshold` requests. -/
def check_burst_protection (cfg : SecurityConfig) (act : UserActivity) (now : Rat) : Bool :=
  !decide ((act.request_times.filter (fun t => decide (now - t < cfg.burst_window))).length
    ≥ cfg.burst_threshold)

/-- `_check_command_spam`: fails when a command follows the previous one
within 2 seconds. -/
def check_command_spam (act : UserActivity) (now : Rat) (isCommand : Bool) : Bool :=
  if !isCommand then true
  else match act.last_command_time with
    | some t => !decide (now - t < 2)
    | none => true

/-- `_check_callback_spam`: prune callback times older than 1s, fail on the
per-second ceiling, then on the identical-callback count in its window. -/
def check_callback_spam (cfg : SecurityConfig) (act : UserActivity) (now : Rat)
    (cb : Option String) (isCallback : Bool) : Bool :=
  match cb, isCallback with
  | some data, true =>
    let times := act.callback_times.filter (fun t => !decide (now - t > 1))
    if decide ((times.length : Rat) ≥ cfg.max_callbacks_per_second) then false
    else if act.last_callback_data = some data then
      !decide ((times.filter (fun t => decide (now - t < cfg.identical_callback_window))).length
        ≥ cfg.max_identical_callbacks)
    else true
  | _, _ => true

/-- `_check_spam_detection` for a present message text: prune the
identical-message window, fail on the identical count, then on the
minimum interval since the last recorded request time. -/
def check_spam_detection (cfg : SecurityConfig) (act : UserActivity) (now : Rat)
    (text : String) : Bool :=
  let msgs := act.identical_messages.filter
    (fun p => !decide (now - p.1 > cfg.identical_message_window))
  if decide ((msgs.filter (fun p => p.2 = text)).length ≥ cfg.max_identical_messages) then
    false
  else match act.request_times.getLast? with
    | some t => !decide (now - t < cfg.min_message_interval)
    | none => true

/-- `_check_survey_protection` for a present FSM context: with no active
survey (or no current state) it passes; otherwise it bounds duration and,
on a state change, the per-minute change count (the deque is pruned from
the front; timestamps arrive in order, so pruning is a window filter). -/
def check_survey_protection (cfg : SecurityConfig) (act : UserActivity) (now : Rat)
    (fsmState : Option String) : Bool :=
  match fsmState with
  | some cs =>
    match act.survey_start_time with
    | none => true
    | some start =>
      if decide (now - start > cfg.max_survey_duration) then false
      else if act.last_state ≠ some cs then
        !decide (((act.state_changes ++ [now]).filter
          (fun t => !decide (now - t > 60))).length > cfg.max_state_changes_per_minute)
      else true
  | none => true

/-- One inbound transport event as seen by the middleware: `fsm = some cs`
means the dispatcher injected an FSM context whose `get_state()` is `cs`. -/
structure InboundEvent where
  user_id : Option Int := none
  isCallback : Bool := false
  text : Option String := none
  callback_data : Option String := none
  fsm : Option (Option String) := none
deriving DecidableEq

/-- `message_text.startswith("/")` for message events. -/
def event_is_command (ev : InboundEvent) : Bool :=
  match ev.text with
  | some t => t.data.head? = some '/'
  | none => false

/-- The `checks` list built in `__call__` (security_middleware.py:411-425),
in source order, over the activity state already updated with the current
request time. -/
def security_checks (cfg : SecurityConfig) (act : UserActivity) (ev : InboundEvent)
    (now : Rat) : List (String × Bool) :=
  [("rate_limit", check_rate_limit cfg act now),
   ("burst", check_burst_protection cfg act now),
   ("command_spam", check_command_spam act now (event_is_command ev))]
  ++ (if ev.isCallback then
        [("callback_spam", check_callback_spam cfg act now ev.callback_data ev.isCallback)]
      else [])
  ++ (match ev.text with
      | some t => if t = "" then [] else [("spam", check_spam_detection cfg act now t)]
      | none => [])
  ++ (match ev.fsm with
      | some st => [("survey", check_survey_protection cfg act now st)]
      | none => [])

/-- Routing decision of `SecurityMiddleware.__call__`. -/
inductive SecDecision
  | forwarded
  | dropBlacklist
  | dropBlocked
  | dropCheck (check : String)
deriving DecidableEq

/-- `_is_blocked`: an unexpired `blocked_until` in the future. -/
def is_blocked (act : UserActivity) (now : Rat) : Bool :=
  match act.blocked_until with
  | some b => decide (now < b)
  | none => false

/-- `SecurityMiddleware.__call__` (security_middleware.py:363-446) as a
routing decision: missing/zero user id forwards unguarded; whitelist
bypass; blacklist drop; active-block drop; then `_update_activity` appends
the current request time and the first failing check in the list drops
the event. -/
def security_call (cfg : SecurityConfig) (act : UserActivity) (ev : InboundEvent)
    (now : Rat) : SecDecision :=
  match ev.user_id with
  | none => .forwarded
  | some uid =>
    if uid = 0 then .forwarded
    else if cfg.whitelist.contains uid then .forwarded
    else if cfg.blacklist.contains uid then .dropBlacklist
    else if is_blocked act now then .dropBlocked
    else
      let act' := { act with request_times := act.request_times ++ [now] }
      match (security_checks cfg act' ev now).find? (fun c => !c.2) with
      | some c => .dropCheck c.1
      | none => .forwarded

/-! ## Session steps for the age and phone handlers -/

/-- `process_age` as a session step: `state.update_data(age=...)` happens
only after the validation cascade succeeds. -/
def process_age (raw : String) (s : SessionData) : SessionData × AgeResult :=
  match process_age_validate raw with
  | .ok n => ({ s with age := some n }, .ok n)
  | r => (s, r)

/-- `process_phone` as a session step: a structured contact share is
accepted as-is; free text is accepted only on a regex match; the phone
field is written only on success. -/
def process_phone (inp : PhoneInput) (s : SessionData) : SessionData × PhoneResult :=
  match inp with
  | .contact num => ({ s with phone := some num }, .ok num)
  | .text txt =>
    if phone_regex_match txt then ({ s with phone := some txt }, .ok txt)
    else (s, .invalid)

/-- Left-biased choice on options (Python dict-merge lookup semantics). -/
def optOr {α : Type} (a b : Option α) : Option α :=
  match a with
  | some v => some v
  | none => b

/-- Experience lookup in an update payload: `none` when the
`driving_experience` key is absent. -/
def expLookup (c : String) (u : ResumeUpdates) : Option Rat :=
  match u.driving_experience with
  | some l => lookupA c l
  | none => none

/-! ## Helper lemmas on association-list lookup -/

theorem lookupA_append {α : Type} (k : String) (a b : List (String × α)) :
    lookupA k (a ++ b) = optOr (lookupA k a) (lookupA k b) := by
  induction a with
  | nil => simp [lookupA, optOr]
  | cons p rest ih =>
    obtain ⟨k', v⟩ := p
    by_cases h : k' = k
    · simp [lookupA, h, optOr]
    · simp [lookupA, h, ih]

theorem lookupA_filterKey {α : Type} (k : String) (P : String → Bool)
    (l : List (String × α)) :
    lookupA k (l.filter (fun p => P p.1)) = if P k then lookupA k l else none := by
  induction l with
  | nil => simp [lookupA]
  | cons p rest ih =>
    obtain ⟨k', v⟩ := p
    by_cases hk : k' = k
    · subst hk
      cases hP : P k' <;> simp [List.filter_cons, hP, lookupA, ih]
    · cases hP : P k' <;> simp [List.filter_cons, hP, lookupA, hk, ih]

theorem lookupA_map_override {α : Type} (k : String) (nw old : List (String × α)) :
    lookupA k (old.map (fun p => match lookupA p.1 nw with
      | some v => (p.1, v)
      | none => p)) =
    match lookupA k old with
    | some v => some ((lookupA k nw).getD v)
    | none => none := by
  induction old with
  | nil => rfl
  | cons p rest ih =>
    obtain ⟨k', v⟩ := p
    by_cases hk : k' = k
    · subst hk
      cases h : lookupA k' nw <;> simp [lookupA, h, List.map_cons]
    · cases h : lookupA k' nw <;> simp [lookupA, h, hk, List.map_cons, ih]

theorem lookupA_dictMerge {α : Type} (k : String) (old nw : List (String × α)) :
    lookupA k (dictMerge old nw) = optOr (lookupA k nw) (lookupA k old) := by
  unfold dictMerge
  rw [lookupA_append, lookupA_map_override]
  have h2 : lookupA k (nw.filter (fun p => (lookupA p.1 old).isNone)) =
      if (lookupA k old).isNone then lookupA k nw else none :=
    lookupA_filterKey k (fun x => (lookupA x old).isNone) nw
  rw [h2]
  cases ho : lookupA k old <;> cases hn : lookupA k nw <;>
    simp [optOr, Option.getD, Option.isNone]

theorem lookupA_eq_none_of_filter_nil {α : Type} (k : String) (P : String → Bool)
    (l : List (String × α)) (h : l.filter (fun p => P p.1) = []) (hk : P k = true) :
    lookupA k l = none := by
  have := lookupA_filterKey k P l
  rw [h, hk] at this
  simp [lookupA] at this
  exact this.symm

/-! ## Reduction lemmas for the driving-categories save branch -/

theorem save_edited_eq_dc (regions : List (String × String)) (addl : List String)
    (data : SessionData) (snap : StoredResume)
    (hf : data.editing_field = some "driving_categories") :
    save_edited_field_updates regions addl data snap =
      driving_categories_updates addl data snap := by
  unfold save_edited_field_updates
  rw [hf]
  rfl

theorem dcu_driving_categories (addl : List String) (data : SessionData)
    (snap : StoredResume) :
    (driving_categories_updates addl data snap).driving_categories
      = some (newCategories data) := rfl

theorem dcu_driving_experience (addl : List String) (data : SessionData)
    (snap : StoredResume) :
    (driving_categories_updates addl data snap).driving_experience
      = if (filtered_experience snap data).isEmpty then none
        else some (filtered_experience snap data) := rfl

theorem dcu_semi_none (addl : List String) (data : SessionData) (snap : StoredResume)
    (h : needs_semi_trailer addl (newCategories data) = false) :
    (driving_categories_updates addl data snap).semi_trailer_types = some [] := by
  show (if needs_semi_trailer addl (newCategories data) then _ else some []) = some []
  rw [h]
  rfl

theorem dcu_frame (addl : List String) (data : SessionData) (snap : StoredResume) :
    (driving_categories_updates addl data snap).name = none ∧
    (driving_categories_updates addl data snap).phone = none ∧
    (driving_categories_updates addl data snap).age = none ∧
    (driving_categories_updates addl data snap).place_of_living = none ∧
    (driving_categories_updates addl data snap).types_of_work = none ∧
    (driving_categories_updates addl data snap).types_of_cars = none ∧
    (driving_categories_updates addl data snap).race_duration_preference = none ∧
    (driving_categories_updates addl data snap).is_adr_license = none ∧
    (driving_categories_updates addl data snap).desired_salary = none ∧
    (driving_categories_updates addl data snap).docs_for_driving_abroad = none ∧
    (driving_categories_updates addl data snap).military_booking = none ∧
    (driving_categories_updates addl data snap).description = none ∧
    (driving_categories_updates addl data snap).user_id = none ∧
    (driving_categories_updates addl data snap).username = none :=
  ⟨rfl, rfl, rfl, rfl, rfl, rfl, rfl, rfl, rfl, rfl, rfl, rfl, rfl, rfl⟩

theorem lookupA_filtered_experience (snap : StoredResume) (data : SessionData)
    (c : String) :
    lookupA c (filtered_experience snap data) =
      if (newCategories data).contains c then
        optOr (lookupA c data.driving_experience) (lookupA c snap.driving_experience)
      else none := by
  simp only [filtered_experience, lookupA_filterKey, lookupA_dictMerge]

/-! ## Claim C1 (driving-categories edit save) -/

/-- C1, counterexample: the claim says the Save payload keeps the
snapshot's experience entry for every category that remains selected; but
when the edit flow re-enters a different value (here 7.0 for "B") the
payload carries the newly entered value, not the snapshot's 3.0. -/
theorem c1_counterexample :
    expLookup "B" (save_edited_field_updates [] DRIVING_CATEGORIES_ADDITIONAL_INFO
        { editing_field := some "driving_categories"
          all_selected_categories := some ["B"]
          driving_experience := [("B", (7:Rat)), ("C1E", (5:Rat))] }
        { driving_categories := ["B", "C1E"]
          driving_experience := [("B", (3:Rat)), ("C1E", (5:Rat))] })
      = some 7 ∧
    lookupA "B" [("B", (3:Rat)), ("C1E", (5:Rat))] = some 3 ∧ ((7:Rat) ≠ 3) := by
  decide

/-- C1 (amended): for an edit of the driving-categories field the Save
payload sets `driving_categories` to the newly selected list; its
`driving_experience` maps each still-selected category to the newly
entered value when one exists and otherwise to the snapshot's value (so
snapshot entries are kept exactly for remaining categories without a new
entry), and drops every category no longer selected; `semi_trailer_types`
is set to the empty list when no remaining category needs detail.  The
spec's concrete scenario holds when the session experience equals the
snapshot copy installed at edit-submit time. -/
theorem c1_driving_categories_save (regions : List (String × String))
    (addl : List String) (data : SessionData) (snap : StoredResume)
    (hf : data.editing_field = some "driving_categories") :
    ((save_edited_field_updates regions addl data snap).driving_categories
        = some (newCategories data)) ∧
    (∀ c : String, (newCategories data).contains c = true →
      expLookup c (save_edited_field_updates regions addl data snap)
        = optOr (lookupA c data.driving_experience) (lookupA c snap.driving_experience)) ∧
    (∀ c : String, (newCategories data).contains c = false →
      expLookup c (save_edited_field_updates regions addl data snap) = none) ∧
    (needs_semi_trailer addl (newCategories data) = false →
      (save_edited_field_updates regions addl data snap).semi_trailer_types = some []) ∧
    (save_edited_field_updates [] DRIVING_CATEGORIES_ADDITIONAL_INFO
        { editing_field := some "driving_categories"
          all_selected_categories := some ["B"]
          driving_experience := [("B", (3:Rat)), ("C1E", (5:Rat))] }
        { driving_categories := ["B", "C1E"]
          driving_experience := [("B", (3:Rat)), ("C1E", (5:Rat))] }
      = { driving_categories := some ["B"]
          driving_experience := some [("B", (3:Rat))]
          semi_trailer_types := some [] }) := by
  rw [save_edited_eq_dc regions addl data snap hf]
  refine ⟨dcu_driving_categories addl data snap, ?_, ?_,
    dcu_semi_none addl data snap, by decide⟩
  · intro c hc
    unfold expLookup
    rw [dcu_driving_experience]
    by_cases hemp : (filtered_experience snap data).isEmpty
    · have hnil : filtered_experience snap data = [] := by
        simpa using hemp
      have h0 : lookupA c (dictMerge snap.driving_experience data.driving_experience)
          = none := by
        refine lookupA_eq_none_of_filter_nil c
          (fun x => (newCategories data).contains x) _ ?_ hc
        simpa [filtered_experience] using hnil
      rw [lookupA_dictMerge] at h0
      rw [if_pos hemp]
      simpa using h0.symm
    · rw [if_neg hemp]
      show lookupA c (filtered_experience snap data) = _
      rw [lookupA_filtered_experience snap data c, if_pos hc]
  · intro c hc
    unfold expLookup
    rw [dcu_driving_experience]
    by_cases hemp : (filtered_experience snap data).isEmpty
    · rw [if_pos hemp]
    · rw [if_neg hemp]
      show lookupA c (filtered_experience snap data) = _
      rw [lookupA_filtered_experience snap data c, if_neg (by rw [hc]; simp)]

/-- C1, witness: concrete application of the amended theorem (the no
longer selected category C1E is dropped from the payload's experience). -/
theorem c1_witness :
    expLookup "C1E" (save_edited_field_updates [] ["C1E", "CE"]
        { editing_field := some "driving_categories"
          all_selected_categories := some ["B"]
          driving_experience := [] }
        { driving_categories := ["B", "C1E"]
          driving_experience := [("B", (3:Rat)), ("C1E", (5:Rat))] }) = none := by
  have h := c1_driving_categories_save [] ["C1E", "CE"]
    { editing_field := some "driving_categories"
      all_selected_categories := some ["B"]
      driving_experience := [] }
    { driving_categories := ["B", "C1E"]
      driving_experience := [("B", (3:Rat)), ("C1E", (5:Rat))] } rfl
  exact h.2.2.1 "C1E" (by decide)

/-! ## Claim C10 (absent experience key leaves the stored map unchanged) -/

/-- C10: when the merged experience filtered to the new selection is empty,
the payload carries no `driving_experience` key, and applying the update
through `update_resume_sync` leaves the stored `driving_experience` — and
every record field not named in the payload — unchanged. -/
theorem c10_absent_experience_key_frame (regions : List (String × String))
    (addl : List String) (data : SessionData) (snap : StoredResume)
    (hf : data.editing_field = some "driving_categories")
    (he : filtered_experience snap data = []) :
    (save_edited_field_updates regions addl data snap).driving_experience = none ∧
    ∀ rec : StoredResume,
      (update_resume_sync rec (save_edited_field_updates regions addl data snap)).driving_experience
          = rec.driving_experience ∧
      (update_resume_sync rec (save_edited_field_updates regions addl data snap)).name = rec.name ∧
      (update_resume_sync rec (save_edited_field_updates regions addl data snap)).phone = rec.phone ∧
      (update_resume_sync rec (save_edited_field_updates regions addl data snap)).age = rec.age ∧
      (update_resume_sync rec (save_edited_field_updates regions addl data snap)).place_of_living
          = rec.place_of_living ∧
      (update_resume_sync rec (save_edited_field_updates regions addl data snap)).types_of_work
          = rec.types_of_work ∧
      (update_resume_sync rec (save_edited_field_updates regions addl data snap)).types_of_cars
          = rec.types_of_cars ∧
      (update_resume_sync rec (save_edited_field_updates regions addl data snap)).race_duration_preference
          = rec.race_duration_preference ∧
      (update_resume_sync rec (save_edited_field_updates regions addl data snap)).is_adr_license
          = rec.is_adr_license ∧
      (update_resume_sync rec (save_edited_field_updates regions addl data snap)).desired_salary
          = rec.desired_salary ∧
      (update_resume_sync rec (save_edited_field_updates regions addl data snap)).docs_for_driving_abroad
          = rec.docs_for_driving_abroad ∧
      (update_resume_sync rec (save_edited_field_updates regions addl data snap)).military_booking
          = rec.military_booking ∧
      (update_resume_sync rec (save_edited_field_updates regions addl data snap)).description
          = rec.description ∧
      (update_resume_sync rec (save_edited_field_updates regions addl data snap)).user_id
          = rec.user_id ∧
      (update_resume_sync rec (save_edited_field_updates regions addl data snap)).username
          = rec.username := by
  rw [save_edited_eq_dc regions addl data snap hf]
  have hde : (driving_categories_updates addl data snap).driving_experience = none := by
    rw [dcu_driving_experience, he]
    rfl
  obtain ⟨hn, hp, ha, hpl, htw, htc, hrd, hadr, hsal, hdocs, hmil, hdesc, huid, hun⟩ :=
    dcu_frame addl data snap
  refine ⟨hde, fun rec => ?_⟩
  unfold update_resume_sync docUpdate update_resume_payload
  simp [hde, hn, hp, ha, hpl, htw, htc, hrd, hadr, hsal, hdocs, hmil, hdesc, huid, hun]

/-- C10, witness: a concrete edit dropping C1E with no re-entered
experience; the stored experience map and the untouched fields survive. -/
theorem c10_witness :
    (update_resume_sync
        { user_id := 42
          username := some "u"
          name := some "A B"
          driving_categories := ["B", "C1E"]
          driving_experience := [("C1E", (5:Rat))] }
        (save_edited_field_updates [] ["C1E", "CE"]
          { editing_field := some "driving_categories"
            all_selected_categories := some ["B"] }
          { driving_categories := ["B", "C1E"]
            driving_experience := [("C1E", (5:Rat))] })).driving_experience
      = [("C1E", (5:Rat))] := by
  have h := c10_absent_experience_key_frame [] ["C1E", "CE"]
    { editing_field := some "driving_categories"
      all_selected_categories := some ["B"] }
    { driving_categories := ["B", "C1E"]
      driving_experience := [("C1E", (5:Rat))] } rfl (by decide)
  exact (h.2
    { user_id := 42
      username := some "u"
      name := some "A B"
      driving_categories := ["B", "C1E"]
      driving_experience := [("C1E", (5:Rat))] }).1

/-! ## Claim C5 (identity fields preserved on every write path) -/

/-- C5: `prepare_resume_data_for_firebase` returns exactly the supplied
`user_id`/`username` (restored after the recursive emoji cleaning), and
`update_resume_sync` never overwrites the stored `user_id`/`username`,
even when the update payload carries those keys. -/
theorem c5_identity_preserved :
    (∀ (regions : List (String × String)) (data : SessionData) (uid : Int)
        (uname : Option String),
      (prepare_resume_data_for_firebase regions data uid uname).user_id = uid ∧
      (prepare_resume_data_for_firebase regions data uid uname).username = uname) ∧
    (∀ (rec : StoredResume) (u : ResumeUpdates),
      (update_resume_sync rec u).user_id = rec.user_id ∧
      (update_resume_sync rec u).username = rec.username) := by
  constructor
  · intro regions data uid uname
    exact ⟨rfl, rfl⟩
  · intro rec u
    unfold update_resume_sync docUpdate update_resume_payload
    constructor
    · cases u.user_id <;> rfl
    · cases u.username <;> rfl

/-! ## Claim C4 (finalize is blind to the persistence outcome) -/

/-- C4: for a resolved acting user, `finalize_resume` produces the same
user-visible outputs — formatted summary, completion message, and the
idle menu rendered as "has a record" — and clears the session, whether
the `add_resume` call returns a key, returns `None`, or raises. -/
theorem c4_finalize_persistence_blind (regions : List (String × String))
    (uid : Int) (uname : Option String) (data : SessionData)
    (o o' : PersistOutcome) :
    (finalize_resume regions (some uid) uname data o).outputs
        = (finalize_resume regions (some uid) uname data o').outputs ∧
    (finalize_resume regions (some uid) uname data o).cleared = true ∧
    (finalize_resume regions (some uid) uname data o).outputs
        = [.summary data, .resumeSavedMsg, .mainMenu true] :=
  ⟨rfl, rfl, rfl⟩

/-! ## Claim C3 (age validator) -/

/-- Acceptance flag of an age-step outcome. -/
def ageOk : AgeResult → Bool
  | .ok _ => true
  | _ => false

theorem isDigit_not_ws (c : Char) (h : c.isDigit = true) : c.isWhitespace = false := by
  rcases hw : c.isWhitespace with _ | _
  · rfl
  · exfalso
    have hw' : c = ' ' ∨ c = '\t' ∨ c = '\r' ∨ c = '\n' := by
      have hx := hw
      simp [Char.isWhitespace] at hx
      tauto
    rcases hw' with h1 | h1 | h1 | h1 <;> subst h1 <;> exact absurd h (by decide)

theorem all_digits_no_ws (l : List Char) (h : l.all Char.isDigit = true) :
    l.all (fun c => !c.isWhitespace) = true := by
  rw [List.all_eq_true] at h ⊢
  intro c hc
  have := isDigit_not_ws c (h c hc)
  simp [this]

/-- C3, counterexample: the claim says `validate_age "18 "` (trailing
space) fails; but the handler strips the input first, so it succeeds.
The edit-mode wrapper moreover accepts the non-all-digit input "+18". -/
theorem c3_counterexample :
    spec_age_valid "18 " = false ∧ process_age_validate "18 " = .ok 18 ∧
    pyIsDigit "+18" = false ∧ process_age_wrapper_validate "+18" = .ok 18 := by
  decide

/-- C3 (amended): the age handler strips leading/trailing whitespace
first and then accepts exactly the spec's rule (non-empty, no internal
whitespace, all-digit, value in [18,100]); the edit-mode wrapper differs
only in using integer parsing instead of the all-digit test (thus also
accepting signed forms); "17" and "101" fail, "18" and "100" succeed;
and on any failure the session's age field is left unchanged. -/
theorem c3_age_validator (raw : String) :
    (ageOk (process_age_validate raw) = spec_age_valid (pyStrip raw)) ∧
    (ageOk (process_age_wrapper_validate raw) =
      (decide (pyStrip raw ≠ "") && !(pyStrip raw).data.contains ' ' &&
        (match pyParseInt (pyStrip raw) with
          | some m => decide (18 ≤ m ∧ m ≤ 100)
          | none => false))) ∧
    (∀ s : SessionData, ageOk (process_age_validate raw) = false →
      (process_age raw s).1 = s) ∧
    (process_age_validate "17" = .invalidErr ∧
      process_age_validate "101" = .invalidErr ∧
      process_age_validate "18" = .ok 18 ∧
      process_age_validate "100" = .ok 100) := by
  refine ⟨?_, ?_, ?_, by decide⟩
  · simp only [process_age_validate]
    by_cases h1 : pyStrip raw = ""
    · rw [h1]
      decide
    rw [if_neg h1]
    by_cases h2 : (pyStrip raw).data.contains ' ' = true
    · rw [if_pos h2]
      have hmem : ' ' ∈ (pyStrip raw).data := by simpa using h2
      have hB : (pyStrip raw).data.all (fun c => !c.isWhitespace) = false := by
        rcases hB' : (pyStrip raw).data.all (fun c => !c.isWhitespace) with _ | _
        · rfl
        · exfalso
          have := List.all_eq_true.mp hB' ' ' hmem
          simp at this
      show false = _
      unfold spec_age_valid
      rw [hB]
      simp [ageOk]
    rw [if_neg h2]
    by_cases h3 : (pyIsDigit (pyStrip raw) &&
        decide (18 ≤ natOfDigitsU (pyStrip raw).data ∧
          natOfDigitsU (pyStrip raw).data ≤ 100)) = true
    · rw [if_pos h3]
      obtain ⟨hd, hr⟩ := Bool.and_eq_true_iff.mp h3
      have hdig : (pyStrip raw).data.all Char.isDigit = true :=
        (Bool.and_eq_true_iff.mp hd).2
      have hne : (!(pyStrip raw).data.isEmpty) = true := (Bool.and_eq_true_iff.mp hd).1
      have hnws := all_digits_no_ws _ hdig
      show true = _
      unfold spec_age_valid
      rw [hnws, hd, hr, hne]
      rfl
    · rw [if_neg h3]
      show false = _
      symm
      unfold spec_age_valid
      rcases hC : pyIsDigit (pyStrip raw) with _ | _
      · simp
      · rcases hD : decide (18 ≤ natOfDigitsU (pyStrip raw).data ∧
            natOfDigitsU (pyStrip raw).data ≤ 100) with _ | _
        · simp
        · exact absurd (by rw [hC, hD]; rfl) h3
  · simp only [process_age_wrapper_validate]
    by_cases h1 : pyStrip raw = ""
    · rw [h1]
      decide
    rw [if_neg h1]
    by_cases h2 : (pyStrip raw).data.contains ' ' = true
    · rw [if_pos h2, h2]
      simp [ageOk]
    · rw [if_neg h2]
      have hc : (pyStrip raw).data.contains ' ' = false := by
        rcases hx : (pyStrip raw).data.contains ' ' with _ | _
        · rfl
        · exact absurd hx h2
      have hmem' : ' ' ∉ (pyStrip raw).data := by simpa using hc
      rcases hp : pyParseInt (pyStrip raw) with _ | m
      · simp [hp, ageOk]
      · by_cases hr : 18 ≤ m ∧ m ≤ 100
        · simp [ageOk, hmem', h1, hr]
        · simp [ageOk, hmem', h1, hr]
  · intro s hno
    unfold process_age
    rcases hv : process_age_validate raw with _ | _ | _ | n
    · rfl
    · rfl
    · rfl
    · rw [hv] at hno
      exact absurd hno (by simp [ageOk])

/-- C3, witness: the amended theorem applied at concrete inputs — a
failing input leaves the default session unchanged, and "18" passes both
the stripped spec rule and the handler. -/
theorem c3_witness :
    (process_age "abc" {}).1 = ({} : SessionData) ∧
    ageOk (process_age_validate "18") = spec_age_valid (pyStrip "18") := by
  have h1 := c3_age_validator "abc"
  have h2 := c3_age_validator "18"
  exact ⟨h1.2.2.1 {} (by decide), h2.1⟩

/-! ## Claim C8 (phone validator) -/

theorem strDataAppend (a b : String) : (a ++ b).data = a.data ++ b.data := by
  cases a with
  | mk l =>
    cases b with
    | mk m => rfl

theorem getLast?_cons_ne {α : Type} (a : α) (l : List α) (h : l ≠ []) :
    (a :: l).getLast? = l.getLast? := by
  cases l with
  | nil => exact absurd rfl h
  | cons b t => exact List.getLast?_cons_cons

theorem dropLast_cons_ne {α : Type} (a : α) (l : List α) (h : l ≠ []) :
    (a :: l).dropLast = a :: l.dropLast := by
  cases l with
  | nil => exact absurd rfl h
  | cons b t => rfl

theorem spec_phone_cases (s : String) (h : spec_phone_exact s = true) :
    ∃ rest : List Char, s.data = '+' :: '3' :: '8' :: '0' :: rest ∧
      rest.length = 9 ∧ rest.all Char.isDigit = true := by
  unfold spec_phone_exact at h
  split at h
  · next rest heq =>
      exact ⟨rest, heq, by simpa using h⟩
  · simp at h

theorem phone_regex_cases (s : String) (h : phone_regex_match s = true) :
    ∃ rest : List Char, s.data = '+' :: '3' :: '8' :: '0' :: rest ∧
      ((rest.length = 9 ∧ rest.all Char.isDigit = true) ∨
        (rest.length = 10 ∧ (rest.take 9).all Char.isDigit = true ∧
          rest.getLast? = some '\n')) := by
  unfold phone_regex_match at h
  split at h
  · next rest heq =>
      refine ⟨rest, heq, ?_⟩
      simpa [and_assoc] using h
  · simp at h

theorem phone_regex_mk_eq (s : String) (l : List Char) (h : s.data = l) :
    phone_regex_match s = phone_regex_match ⟨l⟩ := by
  cases s with
  | mk m =>
    simp only at h
    rw [h]

theorem spec_phone_mk_eq (s : String) (l : List Char) (h : s.data = l) :
    spec_phone_exact s = spec_phone_exact ⟨l⟩ := by
  cases s with
  | mk m =>
    simp only at h
    rw [h]

/-- C8, counterexample: the claim says every free-text input that is not
exactly `+380` followed by 9 digits fails; but Python's `$` also matches
just before a final newline, so "+380501234567\n" is accepted. -/
theorem c8_counterexample :
    spec_phone_exact "+380501234567\n" = false ∧
    (process_phone (.text "+380501234567\n") {}).2 = .ok "+380501234567\n" := by
  decide

/-- C8 (amended): contact shares are accepted as-is with no regex check;
free text is accepted exactly when it is `+380` followed by 9 digits,
optionally followed by one final newline (Python `re.match` `$`
semantics); on failure the invalid-phone result is returned and the
session is unchanged; "+380501234567" succeeds. -/
theorem c8_phone_validator :
    (∀ (num : String) (s : SessionData),
      process_phone (.contact num) s = ({ s with phone := some num }, .ok num)) ∧
    (∀ (txt : String) (s : SessionData), phone_regex_match txt = false →
      process_phone (.text txt) s = (s, .invalid)) ∧
    (∀ (txt : String) (s : SessionData), phone_regex_match txt = true →
      process_phone (.text txt) s = ({ s with phone := some txt }, .ok txt)) ∧
    (∀ txt : String, spec_phone_exact txt = true → phone_regex_match txt = true) ∧
    (∀ core : String, spec_phone_exact core = true →
      phone_regex_match (core ++ "\n") = true) ∧
    (∀ txt : String, phone_regex_match txt = true →
      spec_phone_exact txt = true ∨
        (txt.data.getLast? = some '\n' ∧
          spec_phone_exact ⟨txt.data.dropLast⟩ = true)) ∧
    phone_regex_match "+380501234567" = true := by
  refine ⟨fun num s => rfl, ?_, ?_, ?_, ?_, ?_, by decide⟩
  · intro txt s h
    simp [process_phone, h]
  · intro txt s h
    simp [process_phone, h]
  · intro txt h
    obtain ⟨rest, hdata, h9, hd⟩ := spec_phone_cases txt h
    rw [phone_regex_mk_eq txt _ hdata]
    unfold phone_regex_match
    simp [h9, hd]
  · intro core h
    obtain ⟨rest, hdata, h9, hd⟩ := spec_phone_cases core h
    have hd2 : (core ++ "\n").data = '+' :: '3' :: '8' :: '0' :: (rest ++ ['\n']) := by
      rw [strDataAppend, hdata]
      rfl
    rw [phone_regex_mk_eq _ _ hd2]
    unfold phone_regex_match
    have hl : (rest ++ ['\n']).length = 10 := by simp [h9]
    have ht : (rest ++ ['\n']).take 9 = rest := by
      rw [← h9]
      exact List.take_left rest ['\n']
    have hg : (rest ++ ['\n']).getLast? = some '\n' := by simp
    simp [hl, ht, hg, hd]
  · intro txt h
    obtain ⟨rest, hdata, hor⟩ := phone_regex_cases txt h
    rcases hor with ⟨h9, hd⟩ | ⟨h10, ht, hg⟩
    · left
      rw [spec_phone_mk_eq txt _ hdata]
      unfold spec_phone_exact
      simp [h9, hd]
    · right
      rcases rest with _ | ⟨r, t⟩
      · simp at h10
      constructor
      · rw [hdata]
        rw [getLast?_cons_ne _ _ (by simp), getLast?_cons_ne _ _ (by simp),
          getLast?_cons_ne _ _ (by simp), getLast?_cons_ne _ _ (by simp)]
        exact hg
      · have hdl : txt.data.dropLast = '+' :: '3' :: '8' :: '0' :: (r :: t).dropLast := by
          rw [hdata]
          rw [dropLast_cons_ne _ _ (by simp), dropLast_cons_ne _ _ (by simp),
            dropLast_cons_ne _ _ (by simp), dropLast_cons_ne _ _ (by simp)]
        rw [spec_phone_mk_eq ⟨txt.data.dropLast⟩ _ hdl]
        unfold spec_phone_exact
        have hlen : (r :: t).dropLast.length = 9 := by
          rw [List.length_dropLast, h10]
        have hdig : (r :: t).dropLast.all Char.isDigit = true := by
          rw [List.dropLast_eq_take, h10]
          exact ht
        simp [hlen, hdig]

/-- C8, witness: the amended theorem applied at concrete inputs — a
free-text input without the prefix fails and leaves the session intact,
and the spec's example number is accepted. -/
theorem c8_witness :
    process_phone (.text "0501234567") {} = ({}, .invalid) ∧
    phone_regex_match ("+380501234567" ++ "\n") = true := by
  have h := c8_phone_validator
  exact ⟨h.2.1 "0501234567" {} (by decide), h.2.2.2.2.1 "+380501234567" (by decide)⟩

/-! ## Claims C7 and C9 (selection-toggle engine) -/

theorem toggleItem_involution (x : String) (s : Finset String) :
    toggleItem x (toggleItem x s) = s := by
  unfold toggleItem
  by_cases h : x ∈ s
  · rw [if_pos h, if_neg (Finset.not_mem_erase x s)]
    exact Finset.insert_erase h
  · rw [if_neg h, if_pos (Finset.mem_insert_self x s)]
    exact Finset.erase_insert h

theorem take_app_data (pre suffix : String) :
    (pre ++ suffix).data.take pre.data.length = pre.data := by
  rw [strDataAppend]
  exact List.take_left pre.data suffix.data

theorem drop_app_data (pre suffix : String) :
    (⟨(pre ++ suffix).data.drop pre.data.length⟩ : String) = suffix := by
  cases suffix with
  | mk l =>
    rw [strDataAppend]
    rw [List.drop_left]

theorem toggle_selection_app (pre suffix : String) (options : List String)
    (ns : Option String) (s : ToggleSession) :
    toggle_selection (pre ++ suffix) pre options ns s =
      (if suffix = "submit" then
        (if s.selected = ∅ then (s, .noSelection)
          else ({ s with surveyState := match ns with
                    | some n => some n
                    | none => s.surveyState },
                .submitted s.selected))
      else
        match pyParseInt suffix with
        | some idx =>
          if idx < 0 then (s, .invalidIndex)
          else match options.get? idx.toNat with
            | some item =>
                ({ s with selected := toggleItem item s.selected },
                 .toggled (toggleItem item s.selected))
            | none => (s, .invalidIndex)
        | none =>
            ({ s with selected := toggleItem suffix s.selected },
             .toggled (toggleItem suffix s.selected))) := by
  simp only [toggle_selection]
  rw [if_pos (take_app_data pre suffix), drop_app_data]

theorem toggle_selection_app_idx (pre suffix : String) (options : List String)
    (ns : Option String) (s : ToggleSession) (idx : Int) (item : String)
    (hp : pyParseInt suffix = some idx) (hsub : suffix ≠ "submit")
    (hneg : ¬idx < 0) (hget : options.get? idx.toNat = some item) :
    toggle_selection (pre ++ suffix) pre options ns s
      = ({ s with selected := toggleItem item s.selected },
         .toggled (toggleItem item s.selected)) := by
  rw [toggle_selection_app, if_neg hsub, hp]
  rw [List.get?_eq_getElem?] at hget
  simp [hneg, hget]

theorem toggle_selection_app_label (pre suffix : String) (options : List String)
    (ns : Option String) (s : ToggleSession)
    (hp : pyParseInt suffix = none) (hsub : suffix ≠ "submit") :
    toggle_selection (pre ++ suffix) pre options ns s
      = ({ s with selected := toggleItem suffix s.selected },
         .toggled (toggleItem suffix s.selected)) := by
  rw [toggle_selection_app, if_neg hsub, hp]

/-- C7: toggling the same (valid) option index twice restores the original
selected set, and submitting with an empty selection fails with the
no-selection error leaving the whole session — selected set and survey
state — unchanged. -/
theorem c7_toggle_involution :
    (∀ (pre suffix : String) (options : List String) (ns : Option String)
        (s : ToggleSession) (idx : Int) (item : String),
      pyParseInt suffix = some idx → suffix ≠ "submit" → ¬idx < 0 →
      options.get? idx.toNat = some item →
      ((toggle_selection (pre ++ suffix) pre options ns
          (toggle_selection (pre ++ suffix) pre options ns s).1).1).selected
        = s.selected) ∧
    (∀ (pre : String) (options : List String) (ns : Option String)
        (s : ToggleSession), s.selected = ∅ →
      toggle_selection (pre ++ "submit") pre options ns s = (s, .noSelection)) := by
  constructor
  · intro pre suffix options ns s idx item hp hsub hneg hget
    rw [toggle_selection_app_idx pre suffix options ns s idx item hp hsub hneg hget]
    rw [toggle_selection_app_idx pre suffix options ns _ idx item hp hsub hneg hget]
    exact toggleItem_involution item s.selected
  · intro pre options ns s hempty
    rw [toggle_selection_app]
    rw [if_pos rfl, if_pos hempty]

/-- C7, witness: double-toggling index 0 on a concrete session restores
the selected set. -/
theorem c7_witness :
    ((toggle_selection ("type_of_work_" ++ "0") "type_of_work_" ["a", "b"] none
        (toggle_selection ("type_of_work_" ++ "0") "type_of_work_" ["a", "b"] none
          { selected := {"a"} }).1).1).selected = ({"a"} : Finset String) :=
  c7_toggle_involution.1 "type_of_work_" "0" ["a", "b"] none
    { selected := {"a"} } 0 "a" (by decide) (by decide) (by decide) (by decide)

/-- C9: a choice-tap payload with the step's tag whose suffix is neither
"submit" nor an integer is treated as a raw label and toggled into the
selection without any membership check against the options list, so the
stored selection can contain values outside the fixed vocabulary. -/
theorem c9_unvalidated_label_toggle (pre suffix : String) (options : List String)
    (ns : Option String) (s : ToggleSession)
    (hp : pyParseInt suffix = none) (hsub : suffix ≠ "submit")
    (hnotin : suffix ∉ options) (hnotsel : suffix ∉ s.selected) :
    (toggle_selection (pre ++ suffix) pre options ns s).1.selected
        = insert suffix s.selected ∧
    suffix ∈ (toggle_selection (pre ++ suffix) pre options ns s).1.selected ∧
    (toggle_selection (pre ++ suffix) pre options ns s).2
        = .toggled (insert suffix s.selected) := by
  have h := toggle_selection_app_label pre suffix options ns s hp hsub
  rw [h]
  unfold toggleItem
  rw [if_neg hnotsel]
  exact ⟨rfl, Finset.mem_insert_self suffix s.selected, rfl⟩

/-- C9, witness: the out-of-vocabulary label "junk" ends up in the stored
selection of a concrete session. -/
theorem c9_witness :
    "junk" ∈ (toggle_selection ("type_of_work_" ++ "junk") "type_of_work_"
      ["a", "b"] none {}).1.selected :=
  (c9_unvalidated_label_toggle "type_of_work_" "junk" ["a", "b"] none {}
    (by decide) (by decide) (by decide) (by decide)).2.1

/-! ## Claim C6 (document-list sentinel exclusivity) -/

theorem str_app_inj (pre a b : String) (h : pre ++ a = pre ++ b) : a = b := by
  have hd := congrArg String.data h
  rw [strDataAppend, strDataAppend] at hd
  have hd2 := List.append_cancel_left hd
  cases a with
  | mk l =>
    cases b with
    | mk m =>
      simp only at hd2
      rw [hd2]

theorem sentinel_not_in_toggle (item : String) (sel : Finset String)
    (h : item ≠ no_docs_option) :
    no_docs_option ∉ toggleItem item (sel.erase no_docs_option) := by
  unfold toggleItem
  by_cases hm : item ∈ sel.erase no_docs_option
  · rw [if_pos hm]
    intro hc
    exact absurd (Finset.mem_of_mem_erase hc) (Finset.not_mem_erase _ _)
  · rw [if_neg hm]
    intro hc
    rcases Finset.mem_insert.mp hc with h1 | h1
    · exact h h1.symm
    · exact absurd h1 (Finset.not_mem_erase _ _)

theorem docs_step_shape (docs : List String) (cb : String) (sel : Finset String) :
    (toggle_docs_for_driving_abroad docs cb sel).1 = sel ∨
    (toggle_docs_for_driving_abroad docs cb sel).1 = {no_docs_option} ∨
    ∃ item, item ≠ no_docs_option ∧
      (toggle_docs_for_driving_abroad docs cb sel).1
        = toggleItem item (sel.erase no_docs_option) := by
  unfold toggle_docs_for_driving_abroad
  by_cases h1 : cb = "docs_abroad_submit"
  · rw [if_pos h1]
    by_cases h2 : sel = ∅
    · rw [if_pos h2]
      left
      rfl
    · rw [if_neg h2]
      left
      rfl
  rw [if_neg h1]
  by_cases h3 : cb.data.take ("docs_abroad_" : String).data.length
      = ("docs_abroad_" : String).data
  case neg =>
    rw [if_neg h3]
    left
    rfl
  rw [if_pos h3]
  rcases hp : pyParseInt ⟨cb.data.drop ("docs_abroad_" : String).data.length⟩ with _ | idx
  · left
    rfl
  · by_cases h4 : idx < 0
    · simp [h4]
    rcases hg : docs.get? idx.toNat with _ | item
    · rw [List.get?_eq_getElem?] at hg
      simp [h4, hg]
    · rw [List.get?_eq_getElem?] at hg
      by_cases h5 : item = no_docs_option
      · right
        left
        simp [h4, hg, h5]
      · right
        right
        refine ⟨item, h5, ?_⟩
        simp [h4, hg, h5]

theorem docs_toggle_app_idx (docs : List String) (suffix : String)
    (sel : Finset String) (idx : Int) (item : String)
    (hp : pyParseInt suffix = some idx) (hneg : ¬idx < 0)
    (hget : docs.get? idx.toNat = some item) :
    toggle_docs_for_driving_abroad docs ("docs_abroad_" ++ suffix) sel
      = (if item = no_docs_option then {no_docs_option}
          else toggleItem item (sel.erase no_docs_option),
         .updated (if item = no_docs_option then {no_docs_option}
          else toggleItem item (sel.erase no_docs_option))) := by
  have hsub : suffix ≠ "submit" := by
    intro h
    rw [h] at hp
    have hnone : pyParseInt "submit" = none := by decide
    rw [hnone] at hp
    exact Option.noConfusion hp
  have hne : "docs_abroad_" ++ suffix ≠ "docs_abroad_submit" := by
    intro h
    apply hsub
    apply str_app_inj "docs_abroad_"
    rw [h]
    decide
  unfold toggle_docs_for_driving_abroad
  rw [if_neg hne, if_pos (take_app_data "docs_abroad_" suffix), drop_app_data, hp]
  rw [List.get?_eq_getElem?] at hget
  simp [hneg, hget]

/-- C6: (a) in every selection state reachable by docs-abroad callbacks
from the initial empty selection, the "none" sentinel never coexists with
another entry; (b) selecting the sentinel from any state collapses the
selection to exactly the sentinel; (c) selecting any non-sentinel option
yields a state not containing the sentinel. -/
theorem c6_docs_sentinel_exclusive :
    (∀ (docs : List String) (sel : Finset String), DocsReachable docs sel →
      no_docs_option ∈ sel → sel = {no_docs_option}) ∧
    (∀ (docs : List String) (sel : Finset String) (suffix : String) (idx : Int),
      pyParseInt suffix = some idx → ¬idx < 0 →
      docs.get? idx.toNat = some no_docs_option →
      (toggle_docs_for_driving_abroad docs ("docs_abroad_" ++ suffix) sel).1
        = {no_docs_option}) ∧
    (∀ (docs : List String) (sel : Finset String) (suffix : String) (idx : Int)
        (item : String),
      pyParseInt suffix = some idx → ¬idx < 0 →
      docs.get? idx.toNat = some item → item ≠ no_docs_option →
      no_docs_option ∉
        (toggle_docs_for_driving_abroad docs ("docs_abroad_" ++ suffix) sel).1) := by
  refine ⟨?_, ?_, ?_⟩
  · intro docs sel h
    induction h with
    | init =>
      intro h
      exact absurd h (Finset.not_mem_empty _)
    | step cb sel' hr ih =>
      rcases docs_step_shape docs cb sel' with h1 | h1 | ⟨item, hni, h1⟩
      · rw [h1]
        exact ih
      · rw [h1]
        intro _
        rfl
      · rw [h1]
        intro hc
        exact absurd hc (sentinel_not_in_toggle item sel' hni)
  · intro docs sel suffix idx hp hneg hget
    rw [docs_toggle_app_idx docs suffix sel idx no_docs_option hp hneg hget]
    simp
  · intro docs sel suffix idx item hp hneg hget hni
    rw [docs_toggle_app_idx docs suffix sel idx item hp hneg hget]
    simp only [if_neg hni]
    exact sentinel_not_in_toggle item sel hni

/-- C6, witness: from the empty selection, tapping the sentinel's index
produces a reachable state, and the invariant theorem applied there gives
exactly the singleton sentinel selection. -/
theorem c6_witness :
    (toggle_docs_for_driving_abroad ["❌ Не маю", "docA"] "docs_abroad_0" ∅).1
      = {no_docs_option} :=
  c6_docs_sentinel_exclusive.1 ["❌ Не маю", "docA"] _
    (DocsReachable.step "docs_abroad_0" ∅ DocsReachable.init) (by decide)

/-! ## Claim C2 (abuse-control check ordering) -/

/-- C2, counterexample: the claim says a blacklisted user is dropped even
when also whitelisted; but `__call__` consults the whitelist first, so a
user on both lists is forwarded to the handler. -/
theorem c2_counterexample :
    security_call { whitelist := [7], blacklist := [7] } {} { user_id := some 7 } 0
      = .forwarded ∧
    ({ whitelist := [7], blacklist := [7] } : SecurityConfig).blacklist.contains 7
      = true := by
  decide

/-- C2 (amended): the gate consults the whitelist first and a whitelisted
user bypasses every further check, including the blacklist; the blacklist
is consulted second and drops non-whitelisted members; an active block
drops next; otherwise the first failing entry of the check list decides
the drop, and the event is forwarded exactly when every check passes. -/
theorem c2_security_order (cfg : SecurityConfig) (act : UserActivity)
    (ev : InboundEvent) (now : Rat) (uid : Int)
    (hu : ev.user_id = some uid) (h0 : uid ≠ 0) :
    (cfg.whitelist.contains uid = true →
      security_call cfg act ev now = .forwarded) ∧
    (cfg.whitelist.contains uid = false → cfg.blacklist.contains uid = true →
      security_call cfg act ev now = .dropBlacklist) ∧
    (cfg.whitelist.contains uid = false → cfg.blacklist.contains uid = false →
      is_blocked act now = true → security_call cfg act ev now = .dropBlocked) ∧
    (∀ c : String × Bool,
      cfg.whitelist.contains uid = false → cfg.blacklist.contains uid = false →
      is_blocked act now = false →
      (security_checks cfg { act with request_times := act.request_times ++ [now] }
          ev now).find? (fun p => !p.2) = some c →
      security_call cfg act ev now = .dropCheck c.1) ∧
    (cfg.whitelist.contains uid = false → cfg.blacklist.contains uid = false →
      is_blocked act now = false →
      (security_call cfg act ev now = .forwarded ↔
        ∀ c ∈ security_checks cfg
            { act with request_times := act.request_times ++ [now] } ev now,
          c.2 = true)) := by
  have hsc : security_call cfg act ev now =
      (if cfg.whitelist.contains uid then .forwarded
        else if cfg.blacklist.contains uid then .dropBlacklist
        else if is_blocked act now then .dropBlocked
        else match (security_checks cfg
            { act with request_times := act.request_times ++ [now] } ev now).find?
            (fun c => !c.2) with
          | some c => .dropCheck c.1
          | none => .forwarded) := by
    unfold security_call
    simp only [hu]
    rw [if_neg h0]
  refine ⟨?_, ?_, ?_, ?_, ?_⟩
  · intro hw
    rw [hsc, if_pos hw]
  · intro hw hb
    rw [hsc, if_neg (by rw [hw]; simp), if_pos hb]
  · intro hw hb hblk
    rw [hsc, if_neg (by rw [hw]; simp), if_neg (by rw [hb]; simp), if_pos hblk]
  · intro c hw hb hblk hfind
    rw [hsc, if_neg (by rw [hw]; simp), if_neg (by rw [hb]; simp), if_neg (by rw [hblk]; simp),
      hfind]
  · intro hw hb hblk
    rw [hsc, if_neg (by rw [hw]; simp), if_neg (by rw [hb]; simp), if_neg (by rw [hblk]; simp)]
    constructor
    · intro hfwd
      rcases hfind : (security_checks cfg
          { act with request_times := act.request_times ++ [now] } ev now).find?
          (fun c => !c.2) with _ | c
      · intro x hx
        have hxp := List.find?_eq_none.mp hfind x hx
        simpa using hxp
      · rw [hfind] at hfwd
        simp at hfwd
    · intro hall
      have hfind : (security_checks cfg
          { act with request_times := act.request_times ++ [now] } ev now).find?
          (fun c => !c.2) = none := by
        rw [List.find?_eq_none]
        intro x hx
        simp [hall x hx]
      rw [hfind]

/-- C2, witness: concrete applications — a whitelisted user is forwarded,
a blacklisted one is dropped. -/
theorem c2_witness :
    security_call { whitelist := [5] } {} { user_id := some 5 } 0 = .forwarded ∧
    security_call { blacklist := [6] } {} { user_id := some 6 } 0
      = .dropBlacklist := by
  have h1 := c2_security_order { whitelist := [5] } {} { user_id := some 5 } 0 5
    rfl (by decide)
  have h2 := c2_security_order { blacklist := [6] } {} { user_id := some 6 } 0 6
    rfl (by decide)
  exact ⟨h1.1 (by decide), h2.2.1 (by decide) (by decide)⟩
